import Mathlib

/-!
Shallow embedding of the guarded finite-state-machine engine
(`agent_helper/core.py`, `agent_helper/transition.py`, `agent_helper/enums.py`)
and the delivery-treatment workflow built on it
(`delivery_treatment.py`, `delivery.py`).

Modelling conventions:
* asynchronous actions become pure functions that take the current wall-clock
  value (a `Nat`, standing for `datetime.now()`) and the payload, and return
  the updated payload together with the ordered list of emitted effects;
* the caller-supplied collaborators (`tts_say`, `publish_event`, and the two
  persistence callbacks) become constructors of the `Effect` type, so a run
  yields an observable effect trace;
* one engine dispatch yields a trace of observations `Obs`: the effects of the
  transition action, then a `commit` marker recording the state assignment
  (`self._state = transition.target`), then the effects of the on-enter hook ―
  the source performs exactly these steps in this order under its lock;
* Python truthiness is modelled explicitly: `if event_id:` treats `None` and
  the empty string alike, `if self.failure_reason_text:` treats `None` and
  `""` alike, and `str.strip()` is modelled by `pyStrip` (drop characters
  of CPython's full whitespace set from both ends of the character list);
* the in-place mutation of the shared payload dict / `DeliveryContext` object
  is modelled by threading the payload value through action, hook and caller.
-/

namespace Agent

/-! ## Enumerations (`agent_helper/enums.py`, `delivery.py`) -/

inductive Event where
  | ARRIVAL
  | CONFIRM_YES
  | CONFIRM_NO
  | REASON_NUMBER
  | REASON_TEXT
  | REASON_PROVIDED
  | PHOTO_TAKEN
  | PHOTO_NOT_TAKEN
  | PHOTO_FAILED
  | CANCEL
  | TIMEOUT
deriving DecidableEq, Repr

inductive TreatmentState where
  | ASK_DELIVERY_COMPLETION
  | ASK_NON_DELIVERY_REASON
  | ASK_REASON_DETAIL
  | ASK_PHOTO
  | WAIT_PHOTO_RESULT
  | FINALIZE
deriving DecidableEq, Repr

/-- Domain lifecycle enum `DeliveryState` from `delivery.py`. -/
inductive DeliveryState where
  | PENDING
  | IN_PROGRESS
  | COMPLETED
  | COMPLETED_WITH_PHOTO
  | FAILED
deriving DecidableEq, Repr

/-- Python `enum` member `.name`, used by `finalize_treatment`. -/
def DeliveryState.name : DeliveryState → String
  | .PENDING => "PENDING"
  | .IN_PROGRESS => "IN_PROGRESS"
  | .COMPLETED => "COMPLETED"
  | .COMPLETED_WITH_PHOTO => "COMPLETED_WITH_PHOTO"
  | .FAILED => "FAILED"

inductive FailureReason where
  | RECIPIENT_ABSENT
  | NO_SAFE_PLACE
  | ACCESS_DENIED
  | ADDRESS_INCORRECT
  | RECIPIENT_REFUSED
  | OTHER
deriving DecidableEq, Repr

/-- The `value` of each `FailureReason` member in `delivery.py`. -/
def FailureReason.value : FailureReason → String
  | .RECIPIENT_ABSENT => "1"
  | .NO_SAFE_PLACE => "2"
  | .ACCESS_DENIED => "3"
  | .ADDRESS_INCORRECT => "4"
  | .RECIPIENT_REFUSED => "5"
  | .OTHER => "6"

/-- Iteration order of `for reason in cls` (declaration order). -/
def FailureReason.members : List FailureReason :=
  [.RECIPIENT_ABSENT, .NO_SAFE_PLACE, .ACCESS_DENIED, .ADDRESS_INCORRECT,
   .RECIPIENT_REFUSED, .OTHER]

/-- Model of `FailureReason.from_number`: first member whose value equals the given
number string; the argument is `Option`al because the caller passes
`data.get("number")`, which may be `None`. -/
def FailureReason.from_number (number : Option String) : Option FailureReason :=
  FailureReason.members.find? (fun r => number == some r.value)

/-- Model of `FailureReason.get_text`: the canned human-readable text of each code.
The Python `mapping.get(self.value, "unknown reason")` default is
unreachable because all six values are present in the mapping. -/
def FailureReason.get_text : FailureReason → String
  | .RECIPIENT_ABSENT => "the recipient was absent"
  | .NO_SAFE_PLACE => "no safe place to leave the package"
  | .ACCESS_DENIED => "access not possible (closed door, intercom, secured building)"
  | .ADDRESS_INCORRECT => "address not found or incorrect"
  | .RECIPIENT_REFUSED => "the recipient refused the delivery"
  | .OTHER => "another reason"

/-! ## Delivery context and business rules (`delivery.py`) -/

structure DeliveryContext where
  delivery_id : String
  state : DeliveryState := .PENDING
  failure_reason : Option FailureReason := none
  failure_reason_text : Option String := none
  photo_taken : Bool := false
  completed_at : Option Nat := none
  address : String := ""
  client_name : String := ""
deriving DecidableEq, Repr

/-- Python truthiness of an `Optional[str]`: `None` and `""` are falsy. -/
def truthyStr : Option String → Bool
  | none => false
  | some s => s ≠ ""

/-- The whitespace characters `str.strip()` removes: the code points for
which CPython's `Py_UNICODE_ISSPACE` holds ― tab through carriage return
(U+0009 to U+000D), the file/group/record/unit separators and the space
(U+001C to U+0020), next line (U+0085), no-break space (U+00A0), ogham
space mark (U+1680), the typographic spaces U+2000 to U+200A, the line and
paragraph separators (U+2028, U+2029), narrow no-break space (U+202F),
medium mathematical space (U+205F), and ideographic space (U+3000). -/
def pyWhitespace (c : Char) : Bool :=
  let n := c.toNat
  decide ((0x09 ≤ n ∧ n ≤ 0x0d) ∨ (0x1c ≤ n ∧ n ≤ 0x20) ∨ n = 0x85 ∨
    n = 0xa0 ∨ n = 0x1680 ∨ (0x2000 ≤ n ∧ n ≤ 0x200a) ∨ n = 0x2028 ∨
    n = 0x2029 ∨ n = 0x202f ∨ n = 0x205f ∨ n = 0x3000)

/-- Python `str.strip()` model: drop whitespace from both ends. -/
def pyStrip (s : String) : String :=
  ⟨((s.data.dropWhile pyWhitespace).reverse.dropWhile pyWhitespace).reverse⟩

/-- Model of `DeliveryContext.get_failure_description`: the free text if truthy, else
the structured reason's canned text, else `"unknown"`. -/
def DeliveryContext.get_failure_description (c : DeliveryContext) : String :=
  if truthyStr c.failure_reason_text then c.failure_reason_text.getD ""
  else
    match c.failure_reason with
    | some r => r.get_text
    | none => "unknown"

namespace DeliveryRules

/-- Rule `DeliveryRules.requires_photo`: only `RECIPIENT_ABSENT` requires photo. -/
def requires_photo (reason : Option FailureReason) : Bool :=
  reason == some FailureReason.RECIPIENT_ABSENT

/-- Rule `DeliveryRules.requires_reason_detail`: only `OTHER` needs free text. -/
def requires_reason_detail (reason : Option FailureReason) : Bool :=
  reason == some FailureReason.OTHER

/-- Rule `DeliveryRules.can_complete_without_photo`. -/
def can_complete_without_photo (ctx : DeliveryContext) : Bool :=
  ctx.failure_reason == none

end DeliveryRules

/-! ## Generic transition-table engine (`agent_helper/core.py`) -/

/-- Model of the `Transition` frozen dataclass (`agent_helper/transition.py`), with the
action in the effect-trace model: it consumes the clock and the payload and
returns the mutated payload plus its ordered effects. -/
structure Transition (S E P F : Type) where
  source : S
  event : E
  target : S
  guard : Option (P → Bool) := none
  action : Option (Nat → P → P × List F) := none

/-- The engine state: current state, transition table, processed-event set
(a list with set semantics) and the per-state on-enter hooks. -/
structure StateMachine (S E P F : Type) where
  initial_state : S
  state : S
  transitions : List (Transition S E P F)
  processed_events : List String
  on_enter : S → Option (Nat → P → P × List F)

/-- One observation of a dispatch: an emitted effect, or the commit of the
new state (`self._state = transition.target`). -/
inductive Obs (S F : Type) where
  | eff (f : F)
  | commit (s : S)
deriving DecidableEq, Repr

/-- The effects of an observation trace, in order. -/
def obsEffects {S F : Type} (tr : List (Obs S F)) : List F :=
  tr.filterMap (fun o => match o with | .eff f => some f | .commit _ => none)

/-- A transition is applicable when it has no guard or its guard accepts
(the loop condition of `_select_transition`). -/
def accepts {S E P F : Type} (p : P) (t : Transition S E P F) : Bool :=
  match t.guard with
  | none => true
  | some g => g p

/-- Model of `StateMachine._select_transition`: the first transition whose guard is
absent or accepts the payload. -/
def select_transition {S E P F : Type}
    (ts : List (Transition S E P F)) (p : P) : Option (Transition S E P F) :=
  ts.find? (accepts p)

/-- Bucket lookup for a `(state, event)` key: `self._transitions.get((state, event))`.
The Python dict groups the declared list by key preserving insertion order,
so the bucket equals the order-preserving filter of the declared list. -/
def candidates {S E P F : Type} [DecidableEq S] [DecidableEq E]
    (m : StateMachine S E P F) (s : S) (e : E) : List (Transition S E P F) :=
  m.transitions.filter (fun t => decide (t.source = s) && decide (t.event = e))

/-- Run an optional action (`if transition.action: await transition.action`). -/
def run_action {P F : Type} (a : Option (Nat → P → P × List F))
    (now : Nat) (p : P) : P × List F :=
  match a with
  | none => (p, [])
  | some f => f now p

/-- The body of `handle_event` after the duplicate check: enrich the payload
(`payload["state"] = self._state; payload["event"] = event`, modelled by
`inject`), look up candidates, select, run the action, commit the target
state, run the target's on-enter hook on the action-mutated payload. -/
def StateMachine.dispatch {S E P F : Type} [DecidableEq S] [DecidableEq E]
    (m : StateMachine S E P F) (inject : S → E → P → P) (now : Nat)
    (e : E) (p : P) : StateMachine S E P F × P × List (Obs S F) :=
  let p := inject m.state e p
  let cs := candidates m m.state e
  if cs.isEmpty then (m, p, [])
  else
    match select_transition cs p with
    | none => (m, p, [])
    | some t =>
      let ap := run_action t.action now p
      let m1 := { m with state := t.target }
      let hp := run_action (m.on_enter t.target) now ap.1
      (m1, hp.1, ap.2.map Obs.eff ++ Obs.commit t.target :: hp.2.map Obs.eff)

/-- Model of `StateMachine.handle_event`. `if event_id:` is Python truthiness, so a
`None` or empty-string id skips the whole duplicate-protection block; a
truthy id already in the processed set makes the call return immediately;
otherwise the id is recorded and the event is dispatched. -/
def StateMachine.handle_event {S E P F : Type} [DecidableEq S] [DecidableEq E]
    (m : StateMachine S E P F) (inject : S → E → P → P) (now : Nat)
    (e : E) (p : P) (event_id : Option String) :
    StateMachine S E P F × P × List (Obs S F) :=
  match event_id with
  | none => m.dispatch inject now e p
  | some eid =>
    if eid = "" then m.dispatch inject now e p
    else if eid ∈ m.processed_events then (m, p, [])
    else ({ m with processed_events := eid :: m.processed_events
          }).dispatch inject now e p

/-- Model of `StateMachine.reset`: restore the given (else the initial) state and
clear the processed-event set. -/
def StateMachine.reset {S E P F : Type} (m : StateMachine S E P F)
    (s : Option S) : StateMachine S E P F :=
  { m with state := s.getD m.initial_state, processed_events := [] }

/-! ## Delivery-treatment workflow (`delivery_treatment.py`) -/

/-- A structured notification published through `publish_event`: a JSON-like
record. Fields absent from a given payload dict are `none`; `timestamp`
carries the clock value passed to the emitting action. -/
structure Notification where
  typ : String
  delivery_id : String
  address : Option String := none
  success : Option Bool := none
  final_state : Option String := none
  timestamp : Option Nat := none
deriving DecidableEq, Repr

/-- An observable side effect of the workflow: a spoken prompt, a published
notification, or one of the two persistence callbacks. -/
inductive Effect where
  | say (text : String)
  | publish (n : Notification)
  | mark_completed_cb (delivery_id : String)
  | mark_failed_cb (delivery_id : String) (reason : String)
deriving DecidableEq, Repr

/-- The notifications published in an effect list, in order. -/
def published (fx : List Effect) : List Notification :=
  fx.filterMap (fun f => match f with | .publish n => some n | _ => none)

/-- The payload dict handed to the engine by `DeliveryTreatmentFSM`:
`{"delivery": ..., "mark_completed": ..., "mark_failed": ...}`, plus the
`"state"`/`"event"` keys the engine injects. The two callback entries are
modelled by presence flags (`ctx.get(...)` is checked for truthiness). -/
structure Payload where
  delivery : DeliveryContext
  has_mark_completed : Bool := true
  has_mark_failed : Bool := true
  state_key : Option TreatmentState := none
  event_key : Option Event := none
deriving DecidableEq, Repr

/-- The engine's payload enrichment for this workflow:
`payload["state"] = self._state; payload["event"] = event`. -/
def inject_treatment (s : TreatmentState) (e : Event) (p : Payload) : Payload :=
  { p with state_key := some s, event_key := some e }

namespace TreatmentActions

def ask_completion (_now : Nat) (p : Payload) : Payload × List Effect :=
  (p, [.say "You have arrived. Is the delivery completed? Please answer yes or no."])

def ask_reason (_now : Nat) (p : Payload) : Payload × List Effect :=
  (p, [.say ("Okay. Please choose a reason by number. " ++
    "1. Recipient absent. " ++
    "2. No safe place. " ++
    "3. Access not possible. " ++
    "4. Address not found. " ++
    "5. Recipient refused. " ++
    "6. Other reason.")])

def ask_reason_detail (_now : Nat) (p : Payload) : Payload × List Effect :=
  (p, [.say "Please describe the reason for non-delivery."])

def ask_photo (now : Nat) (p : Payload) : Payload × List Effect :=
  (p, [.say "Please take a photo of the package.",
       .publish { typ := "ask_photo_event",
                  delivery_id := p.delivery.delivery_id,
                  address := some p.delivery.address,
                  timestamp := some now }])

def mark_completed (now : Nat) (p : Payload) : Payload × List Effect :=
  let d := { p.delivery with state := DeliveryState.COMPLETED,
                             completed_at := some now }
  ({ p with delivery := d },
   [Effect.publish { typ := "delivery_confirmed",
                     delivery_id := d.delivery_id,
                     address := some d.address,
                     timestamp := some now }]
   ++ (if p.has_mark_completed then [Effect.mark_completed_cb d.delivery_id] else []))

def mark_completed_with_photo (now : Nat) (p : Payload) : Payload × List Effect :=
  let d := { p.delivery with state := DeliveryState.COMPLETED_WITH_PHOTO,
                             completed_at := some now }
  ({ p with delivery := d },
   [Effect.publish { typ := "delivery_confirmed",
                     delivery_id := d.delivery_id,
                     address := some d.address,
                     timestamp := some now }]
   ++ (if p.has_mark_completed then [Effect.mark_completed_cb d.delivery_id] else []))

def mark_failed (now : Nat) (p : Payload) : Payload × List Effect :=
  let d := { p.delivery with state := DeliveryState.FAILED }
  let reason_text := d.get_failure_description
  ({ p with delivery := d },
   [Effect.publish { typ := "delivery_confirmed",
                     delivery_id := d.delivery_id,
                     address := some d.address,
                     timestamp := some now }]
   ++ (if p.has_mark_failed then [Effect.mark_failed_cb d.delivery_id reason_text] else []))

def finalize_treatment (now : Nat) (p : Payload) : Payload × List Effect :=
  let d := p.delivery
  (p, [Effect.publish { typ := "delivery_treatment_finished",
                        delivery_id := d.delivery_id,
                        success := some (d.state = DeliveryState.COMPLETED ∨
                                         d.state = DeliveryState.COMPLETED_WITH_PHOTO : Bool),
                        final_state := some d.state.name,
                        timestamp := some now }])

end TreatmentActions

namespace TreatmentGuards

def requires_detail (p : Payload) : Bool :=
  DeliveryRules.requires_reason_detail p.delivery.failure_reason

def requires_photo (p : Payload) : Bool :=
  DeliveryRules.requires_photo p.delivery.failure_reason

def immediate_failure (p : Payload) : Bool :=
  !DeliveryRules.requires_photo p.delivery.failure_reason &&
  !DeliveryRules.requires_reason_detail p.delivery.failure_reason

end TreatmentGuards

/-- Abbreviation for a treatment-table transition. -/
abbrev TTransition := Transition TreatmentState Event Payload Effect

def t_confirm_yes : TTransition :=
  { source := .ASK_DELIVERY_COMPLETION, event := .CONFIRM_YES,
    target := .FINALIZE, action := some TreatmentActions.mark_completed }

def t_confirm_no : TTransition :=
  { source := .ASK_DELIVERY_COMPLETION, event := .CONFIRM_NO,
    target := .ASK_NON_DELIVERY_REASON, action := some TreatmentActions.ask_reason }

def t_reason_detail : TTransition :=
  { source := .ASK_NON_DELIVERY_REASON, event := .REASON_NUMBER,
    target := .ASK_REASON_DETAIL, guard := some TreatmentGuards.requires_detail,
    action := some TreatmentActions.ask_reason_detail }

def t_reason_photo : TTransition :=
  { source := .ASK_NON_DELIVERY_REASON, event := .REASON_NUMBER,
    target := .ASK_PHOTO, guard := some TreatmentGuards.requires_photo,
    action := some TreatmentActions.ask_photo }

def t_reason_fail : TTransition :=
  { source := .ASK_NON_DELIVERY_REASON, event := .REASON_NUMBER,
    target := .FINALIZE, guard := some TreatmentGuards.immediate_failure,
    action := some TreatmentActions.mark_failed }

def t_text_photo : TTransition :=
  { source := .ASK_REASON_DETAIL, event := .REASON_TEXT,
    target := .ASK_PHOTO, guard := some TreatmentGuards.requires_photo,
    action := some TreatmentActions.ask_photo }

def t_text_fail : TTransition :=
  { source := .ASK_REASON_DETAIL, event := .REASON_TEXT,
    target := .FINALIZE, action := some TreatmentActions.mark_failed }

def t_photo_taken : TTransition :=
  { source := .ASK_PHOTO, event := .PHOTO_TAKEN,
    target := .FINALIZE, action := some TreatmentActions.mark_completed_with_photo }

def t_photo_not_taken : TTransition :=
  { source := .ASK_PHOTO, event := .PHOTO_NOT_TAKEN,
    target := .FINALIZE, action := some TreatmentActions.mark_failed }

/-- Model of `build_treatment_transitions`, in declared order. -/
def build_treatment_transitions : List TTransition :=
  [t_confirm_yes, t_confirm_no,
   t_reason_detail, t_reason_photo, t_reason_fail,
   t_text_photo, t_text_fail,
   t_photo_taken, t_photo_not_taken]

/-- Hook table `on_enter` wired in `DeliveryTreatmentFSM.__init__`. -/
def treatment_on_enter (s : TreatmentState) :
    Option (Nat → Payload → Payload × List Effect) :=
  match s with
  | .ASK_DELIVERY_COMPLETION => some TreatmentActions.ask_completion
  | .FINALIZE => some TreatmentActions.finalize_treatment
  | _ => none

/-- The engine instance owned by one `DeliveryTreatmentFSM`, at a given
current state and processed-event set (table and hooks are fixed). -/
def mkTreatmentMachine (st : TreatmentState) (processed : List String) :
    StateMachine TreatmentState Event Payload Effect :=
  { initial_state := .ASK_DELIVERY_COMPLETION, state := st,
    transitions := build_treatment_transitions,
    processed_events := processed, on_enter := treatment_on_enter }

/-- The event payload dict of the facade's `handle_event` (`data`): the keys
read by `_update_context`. -/
structure EventData where
  number : Option String := none
  text : Option String := none
deriving DecidableEq, Repr

/-- Model of `DeliveryTreatmentFSM._update_context`: event-specific context mutation
applied before engine dispatch. `data.get("text", "").strip()` is modelled
by `pyStrip (data.text.getD "")`. -/
def update_context (current_state : TreatmentState) (event : Event)
    (data : EventData) (d : DeliveryContext) : DeliveryContext :=
  if event = .REASON_NUMBER ∧ current_state = .ASK_NON_DELIVERY_REASON then
    { d with failure_reason := FailureReason.from_number data.number }
  else if event = .REASON_TEXT ∧ current_state = .ASK_REASON_DETAIL then
    let text := pyStrip (data.text.getD "")
    if text ≠ "" then
      { d with failure_reason_text := some text,
               failure_reason :=
                 if d.failure_reason = none then some FailureReason.OTHER
                 else d.failure_reason }
    else d
  else if event = .PHOTO_TAKEN ∧ current_state = .ASK_PHOTO then
    { d with photo_taken := true }
  else d

/-- The mutable state of a `DeliveryTreatmentFSM` instance: the engine's
current state and processed-event set (its table is fixed) and the owned
delivery context (`None` before `start_treatment` / after `cleanup`). -/
structure DeliveryTreatmentFSM where
  fsm_state : TreatmentState := .ASK_DELIVERY_COMPLETION
  processed_events : List String := []
  delivery : Option DeliveryContext := none
deriving DecidableEq, Repr

/-- Model of `DeliveryTreatmentFSM.start_treatment`: fresh context, engine reset to
the initial state (clearing the processed set), then the completion
question is asked explicitly with a `{"delivery": ...}` payload. -/
def DeliveryTreatmentFSM.start_treatment (_f : DeliveryTreatmentFSM)
    (delivery_id : String) (address : String := "") (now : Nat := 0) :
    DeliveryTreatmentFSM × List Effect :=
  let d : DeliveryContext := { delivery_id := delivery_id, address := address }
  let p : Payload := { delivery := d, has_mark_completed := false,
                       has_mark_failed := false }
  let r := TreatmentActions.ask_completion now p
  ({ fsm_state := .ASK_DELIVERY_COMPLETION, processed_events := [],
     delivery := some r.1.delivery }, r.2)

/-- Model of `DeliveryTreatmentFSM.handle_event`: no-op without an active context;
otherwise `_update_context` mutates the context first, then the engine is
called with the `{"delivery", "mark_completed", "mark_failed"}` envelope and
the context mutated by actions is threaded back into the facade. -/
def DeliveryTreatmentFSM.handle_event (f : DeliveryTreatmentFSM) (now : Nat)
    (event : Event) (data : EventData) (event_id : Option String) :
    DeliveryTreatmentFSM × List (Obs TreatmentState Effect) :=
  match f.delivery with
  | none => (f, [])
  | some d =>
    let d := update_context f.fsm_state event data d
    let p : Payload := { delivery := d }
    let m := mkTreatmentMachine f.fsm_state f.processed_events
    let r := m.handle_event inject_treatment now event p event_id
    ({ fsm_state := r.1.state, processed_events := r.1.processed_events,
       delivery := some r.2.1.delivery }, r.2.2)

/-! ## Auxiliary notions used by the theorems -/

/-- An event id passes the duplicate check of `handle_event`: it is absent,
falsy (the empty string), or not yet in the processed set. -/
def FreshId (processed : List String) (eid : Option String) : Prop :=
  ∀ s, eid = some s → s = "" ∨ s ∉ processed

/-- The processed-set bookkeeping `handle_event` performs for a fresh id:
a truthy id is added to the set, a falsy or absent one is not. -/
def record_id {S E P F : Type} (m : StateMachine S E P F)
    (eid : Option String) : StateMachine S E P F :=
  match eid with
  | none => m
  | some s =>
    if s = "" then m else { m with processed_events := s :: m.processed_events }

/-- The processed-set value after recording a fresh id. -/
def record_list (prc : List String) (eid : Option String) : List String :=
  match eid with
  | none => prc
  | some s => if s = "" then prc else s :: prc

/-- A minimal payload used to instantiate general theorems concretely. -/
def pW : Payload := { delivery := { delivery_id := "W" } }

/-- A payload whose context has reason code "1" (recipient absent), used to
instantiate general theorems concretely. -/
def pAbsent : Payload :=
  { delivery := { delivery_id := "W",
                  failure_reason := some FailureReason.RECIPIENT_ABSENT } }

/-- Concrete engine instance whose only transition is guarded by
`requires_detail`: with a context that chose no reason, the guard rejects.
Test data for the generic engine theorems, not part of the source table. -/
def rejecting_machine : StateMachine TreatmentState Event Payload Effect :=
  { initial_state := .ASK_DELIVERY_COMPLETION,
    state := .ASK_NON_DELIVERY_REASON,
    transitions := [t_reason_detail],
    processed_events := [],
    on_enter := treatment_on_enter }

/-! ## Engine lemmas -/

theorem record_id_state {S E P F : Type} (m : StateMachine S E P F)
    (eid : Option String) : (record_id m eid).state = m.state := by
  cases eid with
  | none => rfl
  | some s => by_cases h : s = "" <;> simp [record_id, h]

theorem record_id_transitions {S E P F : Type} (m : StateMachine S E P F)
    (eid : Option String) : (record_id m eid).transitions = m.transitions := by
  cases eid with
  | none => rfl
  | some s => by_cases h : s = "" <;> simp [record_id, h]

theorem record_id_on_enter {S E P F : Type} (m : StateMachine S E P F)
    (eid : Option String) : (record_id m eid).on_enter = m.on_enter := by
  cases eid with
  | none => rfl
  | some s => by_cases h : s = "" <;> simp [record_id, h]

/-- With a fresh id, `handle_event` records the id (when truthy) and
dispatches; the duplicate early return is not taken. -/
theorem handle_event_fresh {S E P F : Type} [DecidableEq S] [DecidableEq E]
    (m : StateMachine S E P F) (inject : S → E → P → P) (now : Nat) (e : E)
    (p : P) (eid : Option String) (h : FreshId m.processed_events eid) :
    m.handle_event inject now e p eid = (record_id m eid).dispatch inject now e p := by
  cases eid with
  | none => rfl
  | some s =>
    by_cases h2 : s = ""
    · subst h2; simp [StateMachine.handle_event, record_id]
    · rcases h s rfl with h1 | h1
      · exact absurd h1 h2
      · simp [StateMachine.handle_event, record_id, h1, h2]

/-- When no transition is selected (empty bucket or all guards reject),
dispatch leaves the machine untouched and emits nothing. -/
theorem dispatch_no_transition {S E P F : Type} [DecidableEq S] [DecidableEq E]
    (m : StateMachine S E P F) (inject : S → E → P → P) (now : Nat) (e : E)
    (p : P)
    (h : select_transition (candidates m m.state e) (inject m.state e p) = none) :
    m.dispatch inject now e p = (m, inject m.state e p, []) := by
  unfold StateMachine.dispatch
  by_cases hc : (candidates m m.state e).isEmpty <;> simp [hc, h]

/-- When a transition is selected, dispatch runs its action on the enriched
payload, commits the target state, and runs the target's on-enter hook on
the action-mutated payload, in that order. -/
theorem dispatch_transition {S E P F : Type} [DecidableEq S] [DecidableEq E]
    (m : StateMachine S E P F) (inject : S → E → P → P) (now : Nat) (e : E)
    (p : P) (t : Transition S E P F)
    (h : select_transition (candidates m m.state e) (inject m.state e p) = some t) :
    m.dispatch inject now e p =
      ({ m with state := t.target },
       (run_action (m.on_enter t.target) now
          (run_action t.action now (inject m.state e p)).1).1,
       (run_action t.action now (inject m.state e p)).2.map Obs.eff
         ++ Obs.commit t.target
         :: (run_action (m.on_enter t.target) now
              (run_action t.action now (inject m.state e p)).1).2.map Obs.eff) := by
  have hne : (candidates m m.state e).isEmpty = false := by
    cases hcs : candidates m m.state e with
    | nil => rw [hcs] at h; simp [select_transition] at h
    | cons a as => simp
  unfold StateMachine.dispatch
  simp [hne, h]

/-- Recording a fresh id on a treatment machine preserves its state, table
and hooks, and updates only the processed set. -/
theorem record_id_mk (st : TreatmentState) (prc : List String)
    (eid : Option String) :
    record_id (mkTreatmentMachine st prc) eid
      = mkTreatmentMachine st (record_list prc eid) := by
  cases eid with
  | none => rfl
  | some s =>
    by_cases h : s = "" <;> simp [record_id, record_list, mkTreatmentMachine, h]

/-- Selection order: `_select_transition` returns the first list entry whose guard accepts or
which is unguarded: the selected transition occurs in the list, it is
applicable, and every entry before it is rejected. -/
theorem select_transition_first {S E P F : Type}
    (ts : List (Transition S E P F)) (p : P) (t : Transition S E P F)
    (h : select_transition ts p = some t) :
    ∃ i : Fin ts.length, ts.get i = t ∧ accepts p t = true ∧
      ∀ j : Fin ts.length, (j : ℕ) < (i : ℕ) → accepts p (ts.get j) = false := by
  induction ts with
  | nil => simp [select_transition] at h
  | cons a as ih =>
    by_cases ha : accepts p a = true
    · have ht : t = a := by
        unfold select_transition at h
        rw [List.find?_cons_of_pos _ ha] at h
        exact (Option.some_inj.mp h).symm
      subst ht
      refine ⟨⟨0, by simp⟩, rfl, ha, ?_⟩
      intro j hj
      exact absurd hj (Nat.not_lt_zero _)
    · have h' : select_transition as p = some t := by
        unfold select_transition at h ⊢
        rwa [List.find?_cons_of_neg _ ha] at h
      obtain ⟨i, hi, hacc, hbef⟩ := ih h'
      refine ⟨⟨i.1 + 1, Nat.succ_lt_succ i.2⟩, by simpa using hi,
              hacc, ?_⟩
      intro j hj
      rcases j with ⟨jv, hjlt⟩
      cases jv with
      | zero => exact Bool.eq_false_iff.mpr ha
      | succ k =>
        have hk : k < i.1 := Nat.lt_of_succ_lt_succ hj
        simpa using hbef ⟨k, Nat.lt_of_succ_lt_succ hjlt⟩ hk

/-- A fresh-id `handle_event` on which no transition is selected only
records the id: state, payload semantics and trace are untouched. -/
theorem handle_event_no_transition {S E P F : Type} [DecidableEq S] [DecidableEq E]
    (m : StateMachine S E P F) (inject : S → E → P → P) (now : Nat) (e : E)
    (p : P) (eid : Option String)
    (hfresh : FreshId m.processed_events eid)
    (hsel : select_transition (candidates m m.state e) (inject m.state e p) = none) :
    m.handle_event inject now e p eid = (record_id m eid, inject m.state e p, []) := by
  rw [handle_event_fresh _ _ _ _ _ _ hfresh]
  have h2 : candidates (record_id m eid) (record_id m eid).state e
      = candidates m m.state e := by
    unfold candidates; rw [record_id_transitions, record_id_state]
  rw [dispatch_no_transition (record_id m eid) inject now e p
        (by rw [h2, record_id_state]; exact hsel)]
  rw [record_id_state]

/-! ## Claim theorems -/

/-- Claim C2: within a `(state, event)` bucket, `handle_event` selects the
first transition in declared order whose guard accepts or which has no
guard (first conjunct: the selected transition is in the list, applicable,
and everything before it was rejected); concretely, with a context whose
failure reason is code "1" (recipient absent), `ReasonNumber` in
`AskReason` always lands in `AskPhoto` and never in `Finalize`. -/
theorem first_accepting_transition_selected :
    (∀ (S E P F : Type) (ts : List (Transition S E P F)) (p : P)
       (t : Transition S E P F),
        select_transition ts p = some t →
        ∃ i : Fin ts.length, ts.get i = t ∧ accepts p t = true ∧
          ∀ j : Fin ts.length, (j : ℕ) < (i : ℕ) → accepts p (ts.get j) = false)
  ∧ (∀ (prc : List String) (now : Nat) (p : Payload) (eid : Option String),
      FreshId prc eid →
      p.delivery.failure_reason = some FailureReason.RECIPIENT_ABSENT →
      ((mkTreatmentMachine TreatmentState.ASK_NON_DELIVERY_REASON prc).handle_event
          inject_treatment now Event.REASON_NUMBER p eid).1.state
          = TreatmentState.ASK_PHOTO
      ∧ ((mkTreatmentMachine TreatmentState.ASK_NON_DELIVERY_REASON prc).handle_event
          inject_treatment now Event.REASON_NUMBER p eid).1.state
          ≠ TreatmentState.FINALIZE) := by
  constructor
  · exact fun S E P F ts p t h => select_transition_first ts p t h
  · intro prc now p eid hfresh hfr
    have hfresh' : FreshId (mkTreatmentMachine
        TreatmentState.ASK_NON_DELIVERY_REASON prc).processed_events eid := hfresh
    rw [handle_event_fresh _ _ _ _ _ _ hfresh', record_id_mk]
    have hcand : candidates
        (mkTreatmentMachine TreatmentState.ASK_NON_DELIVERY_REASON (record_list prc eid))
        TreatmentState.ASK_NON_DELIVERY_REASON Event.REASON_NUMBER
        = [t_reason_detail, t_reason_photo, t_reason_fail] := rfl
    have hsel : select_transition
        (candidates
          (mkTreatmentMachine TreatmentState.ASK_NON_DELIVERY_REASON (record_list prc eid))
          (mkTreatmentMachine TreatmentState.ASK_NON_DELIVERY_REASON (record_list prc eid)).state
          Event.REASON_NUMBER)
        (inject_treatment
          (mkTreatmentMachine TreatmentState.ASK_NON_DELIVERY_REASON (record_list prc eid)).state
          Event.REASON_NUMBER p)
        = some t_reason_photo := by
      show select_transition [t_reason_detail, t_reason_photo, t_reason_fail] _ = _
      simp only [select_transition, List.find?, accepts, t_reason_detail,
            t_reason_photo, TreatmentGuards.requires_detail,
            TreatmentGuards.requires_photo, DeliveryRules.requires_reason_detail,
            DeliveryRules.requires_photo, inject_treatment, hfr]
      rfl
    rw [dispatch_transition _ _ _ _ _ _ hsel]
    exact ⟨rfl, fun h => TreatmentState.noConfusion h⟩

/-- Witness for C2 at concrete inputs: the ordering property at the full
table with an unguarded head, and the code-"1" property at a concrete
context. -/
theorem first_accepting_transition_selected_witness :
    (select_transition build_treatment_transitions pW = some t_confirm_yes)
  ∧ (∃ i : Fin build_treatment_transitions.length,
      build_treatment_transitions.get i = t_confirm_yes
      ∧ accepts pW t_confirm_yes = true
      ∧ ∀ j : Fin build_treatment_transitions.length, (j : ℕ) < (i : ℕ) →
          accepts pW (build_treatment_transitions.get j) = false)
  ∧ FreshId [] none
  ∧ pAbsent.delivery.failure_reason = some FailureReason.RECIPIENT_ABSENT
  ∧ ((mkTreatmentMachine TreatmentState.ASK_NON_DELIVERY_REASON []).handle_event
      inject_treatment 0 Event.REASON_NUMBER pAbsent none).1.state
      = TreatmentState.ASK_PHOTO := by
  have hfresh : FreshId [] none := fun s h => by cases h
  refine ⟨rfl, ?_, hfresh, rfl, ?_⟩
  · exact first_accepting_transition_selected.1 _ _ _ _
      build_treatment_transitions pW t_confirm_yes rfl
  · exact (first_accepting_transition_selected.2 [] 0 pAbsent none hfresh rfl).1

/-- Claim C3: on every engine `handle_event` that selects a transition, the
transition's action runs to completion first (its effects head the trace),
only then is the new state committed (the `commit` marker), and only after
the commit does the new state's on-enter hook run ― on the very payload the
action produced. -/
theorem action_before_commit_before_hook {S E P F : Type}
    [DecidableEq S] [DecidableEq E]
    (m : StateMachine S E P F) (inject : S → E → P → P) (now : Nat) (e : E)
    (p : P) (eid : Option String) (t : Transition S E P F)
    (hfresh : FreshId m.processed_events eid)
    (hsel : select_transition (candidates m m.state e) (inject m.state e p) = some t) :
    m.handle_event inject now e p eid =
      ({ record_id m eid with state := t.target },
       (run_action (m.on_enter t.target) now
          (run_action t.action now (inject m.state e p)).1).1,
       (run_action t.action now (inject m.state e p)).2.map Obs.eff
         ++ Obs.commit t.target
         :: (run_action (m.on_enter t.target) now
              (run_action t.action now (inject m.state e p)).1).2.map Obs.eff) := by
  rw [handle_event_fresh _ _ _ _ _ _ hfresh]
  have h2 : candidates (record_id m eid) (record_id m eid).state e
      = candidates m m.state e := by
    unfold candidates; rw [record_id_transitions, record_id_state]
  rw [dispatch_transition (record_id m eid) inject now e p t
        (by rw [h2, record_id_state]; exact hsel)]
  simp only [record_id_state, record_id_on_enter]

/-- Witness for C3: the `ConfirmYes` transition from the initial state of
the treatment machine. -/
theorem action_before_commit_before_hook_witness :
    FreshId (mkTreatmentMachine TreatmentState.ASK_DELIVERY_COMPLETION []).processed_events none
  ∧ select_transition
      (candidates (mkTreatmentMachine TreatmentState.ASK_DELIVERY_COMPLETION [])
        (mkTreatmentMachine TreatmentState.ASK_DELIVERY_COMPLETION []).state
        Event.CONFIRM_YES)
      (inject_treatment
        (mkTreatmentMachine TreatmentState.ASK_DELIVERY_COMPLETION []).state
        Event.CONFIRM_YES pW)
      = some t_confirm_yes
  ∧ (mkTreatmentMachine TreatmentState.ASK_DELIVERY_COMPLETION []).handle_event
      inject_treatment 7 Event.CONFIRM_YES pW none =
      ({ record_id (mkTreatmentMachine TreatmentState.ASK_DELIVERY_COMPLETION []) none
           with state := t_confirm_yes.target },
       (run_action ((mkTreatmentMachine TreatmentState.ASK_DELIVERY_COMPLETION []).on_enter
            t_confirm_yes.target) 7
          (run_action t_confirm_yes.action 7
            (inject_treatment
              (mkTreatmentMachine TreatmentState.ASK_DELIVERY_COMPLETION []).state
              Event.CONFIRM_YES pW)).1).1,
       (run_action t_confirm_yes.action 7
          (inject_treatment
            (mkTreatmentMachine TreatmentState.ASK_DELIVERY_COMPLETION []).state
            Event.CONFIRM_YES pW)).2.map Obs.eff
         ++ Obs.commit t_confirm_yes.target
         :: (run_action ((mkTreatmentMachine TreatmentState.ASK_DELIVERY_COMPLETION []).on_enter
              t_confirm_yes.target) 7
            (run_action t_confirm_yes.action 7
              (inject_treatment
                (mkTreatmentMachine TreatmentState.ASK_DELIVERY_COMPLETION []).state
                Event.CONFIRM_YES pW)).1).2.map Obs.eff) := by
  have hfresh : FreshId (mkTreatmentMachine
      TreatmentState.ASK_DELIVERY_COMPLETION []).processed_events none :=
    fun s h => by cases h
  exact ⟨hfresh, rfl,
    action_before_commit_before_hook _ inject_treatment 7 Event.CONFIRM_YES pW
      none t_confirm_yes hfresh rfl⟩

/-- Claim C4: `Finalize` is terminal: the table has no entry with source
`Finalize`, and every `handle_event` on the facade in state `Finalize`
leaves the state `Finalize` and the context untouched and emits nothing
(no action, no hook). -/
theorem finalize_terminal_stability :
    (∀ t ∈ build_treatment_transitions, t.source ≠ TreatmentState.FINALIZE)
  ∧ (∀ (f : DeliveryTreatmentFSM), f.fsm_state = TreatmentState.FINALIZE →
      ∀ (now : Nat) (e : Event) (data : EventData) (eid : Option String),
        (f.handle_event now e data eid).1.fsm_state = TreatmentState.FINALIZE
      ∧ (f.handle_event now e data eid).1.delivery = f.delivery
      ∧ (f.handle_event now e data eid).2 = []) := by
  constructor
  · decide
  · intro f hf now e data eid
    obtain ⟨st, prc, dl⟩ := f
    simp only at hf
    subst hf
    cases dl with
    | none => exact ⟨rfl, rfl, rfl⟩
    | some d =>
      have hupd : update_context TreatmentState.FINALIZE e data d = d := by
        simp [update_context]
      have hsel : ∀ (prc' : List String) (p : Payload),
          select_transition
            (candidates (mkTreatmentMachine TreatmentState.FINALIZE prc')
              (mkTreatmentMachine TreatmentState.FINALIZE prc').state e)
            p = none := by
        intro prc' p
        have : candidates (mkTreatmentMachine TreatmentState.FINALIZE prc')
            (mkTreatmentMachine TreatmentState.FINALIZE prc').state e = [] := by
          cases e <;> rfl
        rw [this]; rfl
      cases eid with
      | none =>
        unfold DeliveryTreatmentFSM.handle_event
        simp only [hupd]
        rw [show (mkTreatmentMachine TreatmentState.FINALIZE prc).handle_event
              inject_treatment now e { delivery := d } none
            = (mkTreatmentMachine TreatmentState.FINALIZE prc).dispatch
                inject_treatment now e { delivery := d } from rfl]
        rw [dispatch_no_transition _ _ _ _ _ (hsel prc { delivery := d })]
        exact ⟨rfl, rfl, rfl⟩
      | some s =>
        by_cases hs : s = ""
        · subst hs
          unfold DeliveryTreatmentFSM.handle_event
          simp only [hupd]
          rw [show (mkTreatmentMachine TreatmentState.FINALIZE prc).handle_event
                inject_treatment now e { delivery := d } (some "")
              = (mkTreatmentMachine TreatmentState.FINALIZE prc).dispatch
                  inject_treatment now e { delivery := d } from rfl]
          rw [dispatch_no_transition _ _ _ _ _ (hsel prc { delivery := d })]
          exact ⟨rfl, rfl, rfl⟩
        · by_cases hmem : s ∈ prc
          · unfold DeliveryTreatmentFSM.handle_event
            simp only [hupd]
            rw [show (mkTreatmentMachine TreatmentState.FINALIZE prc).handle_event
                  inject_treatment now e { delivery := d } (some s)
                = (mkTreatmentMachine TreatmentState.FINALIZE prc,
                   ({ delivery := d } : Payload), []) from by
              simp [StateMachine.handle_event, hs, mkTreatmentMachine, hmem]]
            exact ⟨rfl, rfl, rfl⟩
          · have hfresh : FreshId (mkTreatmentMachine
                TreatmentState.FINALIZE prc).processed_events (some s) :=
              fun s' h => by cases h; exact Or.inr hmem
            unfold DeliveryTreatmentFSM.handle_event
            simp only [hupd]
            rw [handle_event_fresh _ _ _ _ _ _ hfresh, record_id_mk]
            rw [dispatch_no_transition _ _ _ _ _
                  (hsel (record_list prc (some s)) { delivery := d })]
            exact ⟨rfl, rfl, rfl⟩

/-- Witness for C4: a facade in `Finalize` with an active context ignores
`ConfirmYes`. -/
theorem finalize_terminal_stability_witness :
    (({ fsm_state := TreatmentState.FINALIZE, processed_events := [],
        delivery := some { delivery_id := "W" } } : DeliveryTreatmentFSM).fsm_state
      = TreatmentState.FINALIZE)
  ∧ (({ fsm_state := TreatmentState.FINALIZE, processed_events := [],
        delivery := some { delivery_id := "W" } } : DeliveryTreatmentFSM).handle_event
        0 Event.CONFIRM_YES {} none).1.fsm_state = TreatmentState.FINALIZE
  ∧ (({ fsm_state := TreatmentState.FINALIZE, processed_events := [],
        delivery := some { delivery_id := "W" } } : DeliveryTreatmentFSM).handle_event
        0 Event.CONFIRM_YES {} none).2 = [] := by
  refine ⟨rfl, ?_, ?_⟩
  · exact (finalize_terminal_stability.2 _ rfl 0 Event.CONFIRM_YES {} none).1
  · exact (finalize_terminal_stability.2 _ rfl 0 Event.CONFIRM_YES {} none).2.2

/-- Claim C5: an unroutable event (empty bucket), a fully guard-rejected
event, and a facade call with no active delivery context are all non-fatal
no-ops: the call returns with the state unchanged and runs no action or
hook (empty trace). -/
theorem unmatched_event_is_noop :
    (∀ (S E P F : Type) [DecidableEq S] [DecidableEq E]
       (m : StateMachine S E P F) (inject : S → E → P → P) (now : Nat)
       (e : E) (p : P) (eid : Option String),
        FreshId m.processed_events eid →
        candidates m m.state e = [] →
        (m.handle_event inject now e p eid).1.state = m.state
          ∧ (m.handle_event inject now e p eid).2.2 = [])
  ∧ (∀ (S E P F : Type) [DecidableEq S] [DecidableEq E]
       (m : StateMachine S E P F) (inject : S → E → P → P) (now : Nat)
       (e : E) (p : P) (eid : Option String),
        FreshId m.processed_events eid →
        (∀ t ∈ candidates m m.state e, accepts (inject m.state e p) t = false) →
        (m.handle_event inject now e p eid).1.state = m.state
          ∧ (m.handle_event inject now e p eid).2.2 = [])
  ∧ (∀ (f : DeliveryTreatmentFSM) (now : Nat) (e : Event) (data : EventData)
       (eid : Option String), f.delivery = none →
        f.handle_event now e data eid = (f, [])) := by
  refine ⟨?_, ?_, ?_⟩
  · intro S E P F _ _ m inject now e p eid hfresh hcand
    have hsel : select_transition (candidates m m.state e) (inject m.state e p)
        = none := by rw [hcand]; rfl
    rw [handle_event_no_transition m inject now e p eid hfresh hsel]
    exact ⟨record_id_state m eid, rfl⟩
  · intro S E P F _ _ m inject now e p eid hfresh hrej
    have hsel : select_transition (candidates m m.state e) (inject m.state e p)
        = none := by
      refine List.find?_eq_none.mpr ?_
      intro t ht
      rw [hrej t ht]
      exact Bool.false_ne_true
    rw [handle_event_no_transition m inject now e p eid hfresh hsel]
    exact ⟨record_id_state m eid, rfl⟩
  · intro f now e data eid h
    obtain ⟨st, prc, dl⟩ := f
    simp only at h
    subst h
    rfl

/-- Witness for C5: (a) `ConfirmYes` in `Finalize` has no bucket; (b) the
guard-only machine rejects a no-reason context; (c) a facade without a
started treatment ignores everything. -/
theorem unmatched_event_is_noop_witness :
    FreshId (mkTreatmentMachine TreatmentState.FINALIZE []).processed_events none
  ∧ candidates (mkTreatmentMachine TreatmentState.FINALIZE [])
      (mkTreatmentMachine TreatmentState.FINALIZE []).state Event.CONFIRM_YES = []
  ∧ ((mkTreatmentMachine TreatmentState.FINALIZE []).handle_event
      inject_treatment 0 Event.CONFIRM_YES pW none).1.state
      = (mkTreatmentMachine TreatmentState.FINALIZE []).state
  ∧ (∀ t ∈ candidates rejecting_machine rejecting_machine.state Event.REASON_NUMBER,
      accepts (inject_treatment rejecting_machine.state Event.REASON_NUMBER pW) t
        = false)
  ∧ (rejecting_machine.handle_event inject_treatment 0 Event.REASON_NUMBER pW none).2.2
      = []
  ∧ (({} : DeliveryTreatmentFSM).delivery = none)
  ∧ ({} : DeliveryTreatmentFSM).handle_event 0 Event.CONFIRM_YES {} none
      = ({} , []) := by
  have hfresh : ∀ (l : List String), FreshId l none := fun l s h => by cases h
  refine ⟨hfresh _, rfl, ?_, ?_, ?_, rfl, ?_⟩
  · exact (unmatched_event_is_noop.1 TreatmentState Event Payload Effect
      (mkTreatmentMachine TreatmentState.FINALIZE []) inject_treatment 0
      Event.CONFIRM_YES pW none (hfresh _) (by rfl)).1
  · intro t ht
    fin_cases ht; rfl
  · exact (unmatched_event_is_noop.2.1 _ _ _ _ rejecting_machine inject_treatment 0
      Event.REASON_NUMBER pW none (hfresh _) (by intro t ht; fin_cases ht; rfl)).2
  · exact unmatched_event_is_noop.2.2 {} 0 Event.CONFIRM_YES {} none rfl

/-- Claim C8: after `start_treatment("T1", "5 Main St")` ― which asks the
completion question ― handling `ConfirmYes` with id `e1` leaves the context
in lifecycle state `Completed`, publishes the `delivery_confirmed`
notification for `"T1"`, invokes the completed-persistence callback with
`"T1"`, and the terminal on-enter hook publishes the
`delivery_treatment_finished` notification with `success = true`. -/
theorem success_path_end_to_end :
    (DeliveryTreatmentFSM.start_treatment {} "T1" "5 Main St" 0).2
      = [Effect.say "You have arrived. Is the delivery completed? Please answer yes or no."]
  ∧ (let f0 := (DeliveryTreatmentFSM.start_treatment {} "T1" "5 Main St" 0).1
     let res := f0.handle_event 1 Event.CONFIRM_YES {} (some "e1")
     res.1.delivery.map DeliveryContext.state = some DeliveryState.COMPLETED
     ∧ res.2 =
        [Obs.eff (Effect.publish
           { typ := "delivery_confirmed", delivery_id := "T1",
             address := some "5 Main St", success := none,
             final_state := none, timestamp := some 1 }),
         Obs.eff (Effect.mark_completed_cb "T1"),
         Obs.commit TreatmentState.FINALIZE,
         Obs.eff (Effect.publish
           { typ := "delivery_treatment_finished", delivery_id := "T1",
             address := none, success := some true,
             final_state := some "COMPLETED", timestamp := some 1 })]) :=
  ⟨rfl, rfl, rfl⟩

/-- Claim C9 (implicit): every `mark_failed` invocation publishes a
notification of type `delivery_confirmed` ― the very record the success
action `mark_completed` publishes, carrying only the delivery id, the
address, and the timestamp (its `success` and `final_state` fields are
absent, and the notification record has no reason field at all) ― while the
failure description reaches only the failed-persistence callback. -/
theorem mark_failed_notification_shape (now : Nat) (p : Payload) :
    (TreatmentActions.mark_failed now p).2
      = Effect.publish
          { typ := "delivery_confirmed",
            delivery_id := p.delivery.delivery_id,
            address := some p.delivery.address,
            success := none, final_state := none,
            timestamp := some now }
        :: (if p.has_mark_failed
            then [Effect.mark_failed_cb p.delivery.delivery_id
                    p.delivery.get_failure_description]
            else [])
  ∧ published (TreatmentActions.mark_failed now p).2
      = published (TreatmentActions.mark_completed now p).2 := by
  constructor
  · simp [TreatmentActions.mark_failed, DeliveryContext.get_failure_description]
  · by_cases h : p.has_mark_failed <;>
    by_cases h2 : p.has_mark_completed <;>
    simp [TreatmentActions.mark_failed, TreatmentActions.mark_completed,
          published, h, h2]

/-- Full characterization of one facade `handle_event` that selects a
transition: context update, id recording, action, commit, hook. -/
theorem wrapper_run (st : TreatmentState) (prc : List String)
    (d : DeliveryContext) (now : Nat) (e : Event) (data : EventData)
    (eid : Option String) (hfresh : FreshId prc eid) (t : TTransition)
    (hsel : select_transition
        (candidates (mkTreatmentMachine st (record_list prc eid)) st e)
        (inject_treatment st e { delivery := update_context st e data d })
      = some t) :
    (⟨st, prc, some d⟩ : DeliveryTreatmentFSM).handle_event now e data eid
      = (⟨t.target, record_list prc eid,
          some (run_action (treatment_on_enter t.target) now
                 (run_action t.action now
                   (inject_treatment st e
                     { delivery := update_context st e data d })).1).1.delivery⟩,
         (run_action t.action now
            (inject_treatment st e
              { delivery := update_context st e data d })).2.map Obs.eff
           ++ Obs.commit t.target
           :: (run_action (treatment_on_enter t.target) now
                (run_action t.action now
                  (inject_treatment st e
                    { delivery := update_context st e data d })).1).2.map Obs.eff) := by
  show (let d' := update_context st e data d
        let p : Payload := { delivery := d' }
        let m := mkTreatmentMachine st prc
        let r := m.handle_event inject_treatment now e p eid
        ((⟨r.1.state, r.1.processed_events, some r.2.1.delivery⟩ :
            DeliveryTreatmentFSM), r.2.2)) = _
  have hfresh' : FreshId (mkTreatmentMachine st prc).processed_events eid := hfresh
  simp only []
  rw [handle_event_fresh _ _ _ _ _ _ hfresh', record_id_mk,
      dispatch_transition _ _ _ _ _ t hsel]
  rfl

/-- Helper for claim C7, for one reason code with its resolved reason. -/
theorem immediate_code_aux (c : String) (r : FailureReason)
    (hr : FailureReason.from_number (some c) = some r)
    (hg1 : DeliveryRules.requires_reason_detail (some r) = false)
    (hg2 : DeliveryRules.requires_photo (some r) = false)
    (d : DeliveryContext) (htext : d.failure_reason_text = none)
    (prc : List String) (now : Nat) (eid : Option String)
    (hfresh : FreshId prc eid) :
    ((⟨TreatmentState.ASK_NON_DELIVERY_REASON, prc, some d⟩ :
        DeliveryTreatmentFSM).handle_event now Event.REASON_NUMBER
        { number := some c } eid).1.fsm_state = TreatmentState.FINALIZE
  ∧ ((⟨TreatmentState.ASK_NON_DELIVERY_REASON, prc, some d⟩ :
        DeliveryTreatmentFSM).handle_event now Event.REASON_NUMBER
        { number := some c } eid).1.delivery
      = some { d with failure_reason := some r, state := DeliveryState.FAILED }
  ∧ ((⟨TreatmentState.ASK_NON_DELIVERY_REASON, prc, some d⟩ :
        DeliveryTreatmentFSM).handle_event now Event.REASON_NUMBER
        { number := some c } eid).2
      = [Obs.eff (Effect.publish
           { typ := "delivery_confirmed", delivery_id := d.delivery_id,
             address := some d.address, success := none, final_state := none,
             timestamp := some now }),
         Obs.eff (Effect.mark_failed_cb d.delivery_id r.get_text),
         Obs.commit TreatmentState.FINALIZE,
         Obs.eff (Effect.publish
           { typ := "delivery_treatment_finished",
             delivery_id := d.delivery_id, address := none,
             success := some false, final_state := some "FAILED",
             timestamp := some now })] := by
  have hupd : update_context TreatmentState.ASK_NON_DELIVERY_REASON
      Event.REASON_NUMBER { number := some c } d
      = { d with failure_reason := some r } := by
    simp [update_context, hr]
  have hsel : select_transition
      (candidates (mkTreatmentMachine TreatmentState.ASK_NON_DELIVERY_REASON
          (record_list prc eid))
        TreatmentState.ASK_NON_DELIVERY_REASON Event.REASON_NUMBER)
      (inject_treatment TreatmentState.ASK_NON_DELIVERY_REASON Event.REASON_NUMBER
        { delivery := update_context TreatmentState.ASK_NON_DELIVERY_REASON
            Event.REASON_NUMBER { number := some c } d })
      = some t_reason_fail := by
    rw [hupd]
    show select_transition [t_reason_detail, t_reason_photo, t_reason_fail] _ = _
    simp [select_transition, List.find?, accepts, t_reason_detail, t_reason_photo,
      t_reason_fail, TreatmentGuards.requires_detail, TreatmentGuards.requires_photo,
      TreatmentGuards.immediate_failure, inject_treatment, hg1, hg2]
  refine ⟨?_, ?_, ?_⟩ <;>
    rw [wrapper_run _ _ _ _ _ _ _ hfresh t_reason_fail hsel, hupd]
  · rfl
  · rfl
  · simp [run_action, t_reason_fail, treatment_on_enter,
      TreatmentActions.mark_failed, TreatmentActions.finalize_treatment,
      inject_treatment, DeliveryContext.get_failure_description, truthyStr,
      htext, DeliveryState.name]

/-- Claim C7: for each reason code in {2,3,4,5}, `ReasonNumber` in
`AskReason` transitions directly to `Finalize` via the mark-failed action,
and the failed-persistence callback receives exactly that code's canned
text (for a context without leftover free text, as produced by the
workflow). -/
theorem immediate_failure_codes_finalize (c : String)
    (hc : c ∈ ["2", "3", "4", "5"]) (d : DeliveryContext)
    (htext : d.failure_reason_text = none)
    (prc : List String) (now : Nat) (eid : Option String)
    (hfresh : FreshId prc eid) :
    ∃ r : FailureReason,
      FailureReason.from_number (some c) = some r
      ∧ ((⟨TreatmentState.ASK_NON_DELIVERY_REASON, prc, some d⟩ :
            DeliveryTreatmentFSM).handle_event now Event.REASON_NUMBER
            { number := some c } eid).1.fsm_state = TreatmentState.FINALIZE
      ∧ ((⟨TreatmentState.ASK_NON_DELIVERY_REASON, prc, some d⟩ :
            DeliveryTreatmentFSM).handle_event now Event.REASON_NUMBER
            { number := some c } eid).1.delivery
          = some { d with failure_reason := some r, state := DeliveryState.FAILED }
      ∧ ((⟨TreatmentState.ASK_NON_DELIVERY_REASON, prc, some d⟩ :
            DeliveryTreatmentFSM).handle_event now Event.REASON_NUMBER
            { number := some c } eid).2
          = [Obs.eff (Effect.publish
               { typ := "delivery_confirmed", delivery_id := d.delivery_id,
                 address := some d.address, success := none, final_state := none,
                 timestamp := some now }),
             Obs.eff (Effect.mark_failed_cb d.delivery_id r.get_text),
             Obs.commit TreatmentState.FINALIZE,
             Obs.eff (Effect.publish
               { typ := "delivery_treatment_finished",
                 delivery_id := d.delivery_id, address := none,
                 success := some false, final_state := some "FAILED",
                 timestamp := some now })] := by
  simp only [List.mem_cons, List.not_mem_nil, or_false] at hc
  rcases hc with rfl | rfl | rfl | rfl
  · exact ⟨FailureReason.NO_SAFE_PLACE, rfl,
      immediate_code_aux "2" FailureReason.NO_SAFE_PLACE rfl rfl rfl
        d htext prc now eid hfresh⟩
  · exact ⟨FailureReason.ACCESS_DENIED, rfl,
      immediate_code_aux "3" FailureReason.ACCESS_DENIED rfl rfl rfl
        d htext prc now eid hfresh⟩
  · exact ⟨FailureReason.ADDRESS_INCORRECT, rfl,
      immediate_code_aux "4" FailureReason.ADDRESS_INCORRECT rfl rfl rfl
        d htext prc now eid hfresh⟩
  · exact ⟨FailureReason.RECIPIENT_REFUSED, rfl,
      immediate_code_aux "5" FailureReason.RECIPIENT_REFUSED rfl rfl rfl
        d htext prc now eid hfresh⟩

/-- Witness for C7 at code "2" with a fresh context. -/
theorem immediate_failure_codes_finalize_witness :
    (("2" : String) ∈ (["2", "3", "4", "5"] : List String))
  ∧ (({ delivery_id := "W" } : DeliveryContext).failure_reason_text = none)
  ∧ FreshId [] none
  ∧ ∃ r : FailureReason,
      FailureReason.from_number (some "2") = some r
      ∧ ((⟨TreatmentState.ASK_NON_DELIVERY_REASON, [],
            some { delivery_id := "W" }⟩ :
            DeliveryTreatmentFSM).handle_event 3 Event.REASON_NUMBER
            { number := some "2" } none).1.fsm_state = TreatmentState.FINALIZE := by
  have hfresh : FreshId [] none := fun s h => by cases h
  refine ⟨by decide, rfl, hfresh, ?_⟩
  obtain ⟨r, hr, h1, -, -⟩ := immediate_failure_codes_finalize "2" (by decide)
    { delivery_id := "W" } rfl [] 3 none hfresh
  exact ⟨r, hr, h1⟩

/-- Claim C10 (implicit): a number string outside the six defined codes
(or non-numeric input) resolves to no structured reason; the
`immediate_failure` guard then accepts, so `ReasonNumber` in `AskReason`
fails the delivery: straight to `Finalize` via mark-failed with failure
description `"unknown"` ― the input is not rejected or re-asked. -/
theorem unknown_reason_code_fails_delivery (n : String)
    (hn : n ∉ FailureReason.members.map FailureReason.value)
    (d : DeliveryContext) (htext : d.failure_reason_text = none)
    (prc : List String) (now : Nat) (eid : Option String)
    (hfresh : FreshId prc eid) :
    FailureReason.from_number (some n) = none
  ∧ TreatmentGuards.immediate_failure
      { delivery := { d with failure_reason := none } } = true
  ∧ ((⟨TreatmentState.ASK_NON_DELIVERY_REASON, prc, some d⟩ :
        DeliveryTreatmentFSM).handle_event now Event.REASON_NUMBER
        { number := some n } eid).1.fsm_state = TreatmentState.FINALIZE
  ∧ ((⟨TreatmentState.ASK_NON_DELIVERY_REASON, prc, some d⟩ :
        DeliveryTreatmentFSM).handle_event now Event.REASON_NUMBER
        { number := some n } eid).1.delivery
      = some { d with failure_reason := none, state := DeliveryState.FAILED }
  ∧ Obs.eff (Effect.mark_failed_cb d.delivery_id "unknown")
      ∈ ((⟨TreatmentState.ASK_NON_DELIVERY_REASON, prc, some d⟩ :
          DeliveryTreatmentFSM).handle_event now Event.REASON_NUMBER
          { number := some n } eid).2 := by
  have hfn : FailureReason.from_number (some n) = none := by
    refine List.find?_eq_none.mpr ?_
    intro r hr h
    exact hn (List.mem_map.mpr ⟨r, hr, (Option.some.inj (eq_of_beq h)).symm⟩)
  have hupd : update_context TreatmentState.ASK_NON_DELIVERY_REASON
      Event.REASON_NUMBER { number := some n } d
      = { d with failure_reason := none } := by
    simp [update_context, hfn]
  have hsel : select_transition
      (candidates (mkTreatmentMachine TreatmentState.ASK_NON_DELIVERY_REASON
          (record_list prc eid))
        TreatmentState.ASK_NON_DELIVERY_REASON Event.REASON_NUMBER)
      (inject_treatment TreatmentState.ASK_NON_DELIVERY_REASON Event.REASON_NUMBER
        { delivery := update_context TreatmentState.ASK_NON_DELIVERY_REASON
            Event.REASON_NUMBER { number := some n } d })
      = some t_reason_fail := by
    rw [hupd]; rfl
  refine ⟨hfn, rfl, ?_, ?_, ?_⟩ <;>
    rw [wrapper_run _ _ _ _ _ _ _ hfresh t_reason_fail hsel, hupd]
  · rfl
  · rfl
  · simp [run_action, t_reason_fail, treatment_on_enter,
      TreatmentActions.mark_failed, TreatmentActions.finalize_treatment,
      inject_treatment, DeliveryContext.get_failure_description, truthyStr,
      htext, DeliveryState.name]

/-- Witness for C10 at input "7". -/
theorem unknown_reason_code_fails_delivery_witness :
    (("7" : String) ∉ FailureReason.members.map FailureReason.value)
  ∧ (({ delivery_id := "W" } : DeliveryContext).failure_reason_text = none)
  ∧ FreshId [] none
  ∧ FailureReason.from_number (some "7") = none
  ∧ ((⟨TreatmentState.ASK_NON_DELIVERY_REASON, [],
        some { delivery_id := "W" }⟩ :
        DeliveryTreatmentFSM).handle_event 5 Event.REASON_NUMBER
        { number := some "7" } none).1.fsm_state = TreatmentState.FINALIZE := by
  have hfresh : FreshId [] none := fun s h => by cases h
  have h7 : ("7" : String) ∉ FailureReason.members.map FailureReason.value := by
    decide
  obtain ⟨h1, -, h3, -, -⟩ := unknown_reason_code_fails_delivery "7" h7
    { delivery_id := "W" } rfl [] 5 none hfresh
  exact ⟨h7, rfl, hfresh, h1, h3⟩

/-- Claim C6 as stated fails on the code: `" "` is a non-empty text, yet
handling `ReasonText " "` in `AskReasonDetail` (context with no structured
reason) strips it to the empty string, so the structured reason stays
`none` ― not "other" ―, no free-text detail is stored, and the failure
description used at finalization is `"unknown"`, not `" "`. -/
theorem reason_text_verbatim_counterexample :
    (" " : String) ≠ ""
  ∧ ((⟨TreatmentState.ASK_REASON_DETAIL, [], some { delivery_id := "D1" }⟩ :
        DeliveryTreatmentFSM).handle_event 0 Event.REASON_TEXT
        { text := some " " } none).1.delivery.map DeliveryContext.failure_reason
      = some none
  ∧ ((⟨TreatmentState.ASK_REASON_DETAIL, [], some { delivery_id := "D1" }⟩ :
        DeliveryTreatmentFSM).handle_event 0 Event.REASON_TEXT
        { text := some " " } none).1.delivery.map DeliveryContext.failure_reason_text
      = some none
  ∧ Obs.eff (Effect.mark_failed_cb "D1" "unknown")
      ∈ ((⟨TreatmentState.ASK_REASON_DETAIL, [], some { delivery_id := "D1" }⟩ :
          DeliveryTreatmentFSM).handle_event 0 Event.REASON_TEXT
          { text := some " " } none).2 := by
  refine ⟨by decide, by decide, by decide, by decide⟩

/-- Claim C6 (amended): for every text whose whitespace-trimmed form `t'`
is non-empty, handling `ReasonText` in `AskReasonDetail` on a context that
chose no structured reason or "other" sets the structured reason to
"other", stores `t'` as the free-text detail, finalizes, and the failure
description used at finalization equals `t'` verbatim. -/
theorem reason_text_context_consistency (d : DeliveryContext) (t : String)
    (hfr : d.failure_reason = none ∨ d.failure_reason = some FailureReason.OTHER)
    (ht : ¬ pyStrip t = "")
    (prc : List String) (now : Nat) (eid : Option String)
    (hfresh : FreshId prc eid) :
    ((⟨TreatmentState.ASK_REASON_DETAIL, prc, some d⟩ :
        DeliveryTreatmentFSM).handle_event now Event.REASON_TEXT
        { text := some t } eid).1.fsm_state = TreatmentState.FINALIZE
  ∧ ((⟨TreatmentState.ASK_REASON_DETAIL, prc, some d⟩ :
        DeliveryTreatmentFSM).handle_event now Event.REASON_TEXT
        { text := some t } eid).1.delivery
      = some { d with failure_reason := some FailureReason.OTHER,
                      failure_reason_text := some (pyStrip t),
                      state := DeliveryState.FAILED }
  ∧ ({ d with
        failure_reason := some FailureReason.OTHER,
        failure_reason_text := some (pyStrip t) } :
        DeliveryContext).get_failure_description = pyStrip t
  ∧ Obs.eff (Effect.mark_failed_cb d.delivery_id (pyStrip t))
      ∈ ((⟨TreatmentState.ASK_REASON_DETAIL, prc, some d⟩ :
          DeliveryTreatmentFSM).handle_event now Event.REASON_TEXT
          { text := some t } eid).2 := by
  have hupd : update_context TreatmentState.ASK_REASON_DETAIL Event.REASON_TEXT
      { text := some t } d
      = { d with failure_reason := some FailureReason.OTHER,
                 failure_reason_text := some (pyStrip t) } := by
    rcases hfr with h | h <;> simp [update_context, ht, h]
  have hsel : select_transition
      (candidates (mkTreatmentMachine TreatmentState.ASK_REASON_DETAIL
          (record_list prc eid))
        TreatmentState.ASK_REASON_DETAIL Event.REASON_TEXT)
      (inject_treatment TreatmentState.ASK_REASON_DETAIL Event.REASON_TEXT
        { delivery := update_context TreatmentState.ASK_REASON_DETAIL
            Event.REASON_TEXT { text := some t } d })
      = some t_text_fail := by
    rw [hupd]; rfl
  have hdesc : ({ d with
      failure_reason := some FailureReason.OTHER,
      failure_reason_text := some (pyStrip t) } :
      DeliveryContext).get_failure_description = pyStrip t := by
    simp [DeliveryContext.get_failure_description, truthyStr, ht]
  refine ⟨?_, ?_, hdesc, ?_⟩ <;>
    rw [wrapper_run _ _ _ _ _ _ _ hfresh t_text_fail hsel, hupd]
  · rfl
  · rfl
  · simp [run_action, t_text_fail, treatment_on_enter,
      TreatmentActions.mark_failed, TreatmentActions.finalize_treatment,
      inject_treatment, DeliveryContext.get_failure_description, truthyStr,
      ht, DeliveryState.name]

/-- Idempotency of `_update_context`: applying the same event-specific
mutation twice equals applying it once. -/
theorem update_context_idem (st : TreatmentState) (e : Event) (data : EventData)
    (d : DeliveryContext) :
    update_context st e data (update_context st e data d)
      = update_context st e data d := by
  by_cases h1 : e = Event.REASON_NUMBER ∧ st = TreatmentState.ASK_NON_DELIVERY_REASON
  · simp [update_context, h1]
  · by_cases h2 : e = Event.REASON_TEXT ∧ st = TreatmentState.ASK_REASON_DETAIL
    · by_cases h3 : pyStrip (data.text.getD "") = ""
      · simp [update_context, h1, h2, h3]
      · cases hd : d.failure_reason <;>
          simp [update_context, h1, h2, h3, hd]
    · by_cases h4 : e = Event.PHOTO_TAKEN ∧ st = TreatmentState.ASK_PHOTO
      · simp [update_context, h1, h2, h4]
      · simp [update_context, h1, h2, h4]

/-- No transition's target re-enables the context mutation of its own
event: for every table entry, `_update_context` at the target state with
the same event is the identity. -/
theorem update_context_target_id (t : TTransition)
    (ht : t ∈ build_treatment_transitions) (e : Event) (hte : t.event = e)
    (data : EventData) (d : DeliveryContext) :
    update_context t.target e data d = d := by
  subst hte
  simp only [build_treatment_transitions] at ht
  fin_cases ht <;>
    simp [update_context, t_confirm_yes, t_confirm_no, t_reason_detail,
      t_reason_photo, t_reason_fail, t_text_photo, t_text_fail,
      t_photo_taken, t_photo_not_taken]

/-- No transition's target has a bucket for the same event: the table
contains no consecutive pair of edges on one event. -/
theorem no_follow_up_bucket (t : TTransition)
    (ht : t ∈ build_treatment_transitions) (e : Event) (hte : t.event = e)
    (prc : List String) :
    candidates (mkTreatmentMachine t.target prc) t.target e = [] := by
  subst hte
  simp only [build_treatment_transitions] at ht
  fin_cases ht <;> rfl

/-- A facade `handle_event` whose truthy id is already processed is an
engine-level early return: only `_update_context` has run. -/
theorem wrapper_dedup (st : TreatmentState) (prc : List String)
    (d : DeliveryContext) (now : Nat) (e : Event) (data : EventData)
    (s : String) (hs : s ≠ "") (hmem : s ∈ prc) :
    (⟨st, prc, some d⟩ : DeliveryTreatmentFSM).handle_event now e data (some s)
      = (⟨st, prc, some (update_context st e data d)⟩, []) := by
  show (let d' := update_context st e data d
        let p : Payload := { delivery := d' }
        let m := mkTreatmentMachine st prc
        let r := m.handle_event inject_treatment now e p (some s)
        ((⟨r.1.state, r.1.processed_events, some r.2.1.delivery⟩ :
            DeliveryTreatmentFSM), r.2.2)) = _
  simp only []
  rw [show (mkTreatmentMachine st prc).handle_event inject_treatment now e
        { delivery := update_context st e data d } (some s)
      = (mkTreatmentMachine st prc,
         ({ delivery := update_context st e data d } : Payload), []) from by
    simp [StateMachine.handle_event, hs, mkTreatmentMachine, hmem]]
  rfl

/-- A fresh-id facade `handle_event` on which no transition is selected
records the id and applies only `_update_context`. -/
theorem wrapper_run_noop (st : TreatmentState) (prc : List String)
    (d : DeliveryContext) (now : Nat) (e : Event) (data : EventData)
    (eid : Option String) (hfresh : FreshId prc eid)
    (hsel : select_transition
        (candidates (mkTreatmentMachine st (record_list prc eid)) st e)
        (inject_treatment st e { delivery := update_context st e data d })
      = none) :
    (⟨st, prc, some d⟩ : DeliveryTreatmentFSM).handle_event now e data eid
      = (⟨st, record_list prc eid, some (update_context st e data d)⟩, []) := by
  show (let d' := update_context st e data d
        let p : Payload := { delivery := d' }
        let m := mkTreatmentMachine st prc
        let r := m.handle_event inject_treatment now e p eid
        ((⟨r.1.state, r.1.processed_events, some r.2.1.delivery⟩ :
            DeliveryTreatmentFSM), r.2.2)) = _
  have hfresh' : FreshId (mkTreatmentMachine st prc).processed_events eid := hfresh
  simp only []
  rw [handle_event_fresh _ _ _ _ _ _ hfresh', record_id_mk,
      dispatch_no_transition _ _ _ _ _ hsel]
  rfl

/-- Claim C1: consecutive duplicate delivery — for any event id (present,
empty, or absent), calling the facade's `handle_event` twice with the same
event, data and id yields exactly one state transition and one set of side
effects: the second call emits nothing and leaves the dialogue state, the
delivery context and the processed-event set exactly as the first call
left them. -/
theorem duplicate_event_replay_is_noop (f : DeliveryTreatmentFSM)
    (n1 n2 : Nat) (e : Event) (data : EventData) (eid : Option String) :
    ((f.handle_event n1 e data eid).1.handle_event n2 e data eid).1
      = (f.handle_event n1 e data eid).1
  ∧ ((f.handle_event n1 e data eid).1.handle_event n2 e data eid).2 = [] := by
  obtain ⟨st, prc, dl⟩ := f
  cases dl with
  | none => exact ⟨rfl, rfl⟩
  | some d =>
    have hfalsy : ∀ (eid' : Option String), eid' = none ∨ eid' = some "" →
        ∀ (prc' : List String),
        (((⟨st, prc', some d⟩ : DeliveryTreatmentFSM).handle_event n1 e data
            eid').1.handle_event n2 e data eid').1
          = ((⟨st, prc', some d⟩ : DeliveryTreatmentFSM).handle_event n1 e data
              eid').1
        ∧ (((⟨st, prc', some d⟩ : DeliveryTreatmentFSM).handle_event n1 e data
            eid').1.handle_event n2 e data eid').2 = [] := by
      intro eid' hf prc'
      have hfresh : FreshId prc' eid' := by
        rcases hf with rfl | rfl
        · exact fun s h => by cases h
        · exact fun s h => Or.inl (by cases h; rfl)
      have hrl : record_list prc' eid' = prc' := by
        rcases hf with rfl | rfl <;> simp [record_list]
      cases hsel : select_transition
          (candidates (mkTreatmentMachine st (record_list prc' eid')) st e)
          (inject_treatment st e { delivery := update_context st e data d }) with
      | none =>
        rw [wrapper_run_noop st prc' d n1 e data eid' hfresh hsel, hrl]
        have hsel2 : select_transition
            (candidates (mkTreatmentMachine st (record_list prc' eid')) st e)
            (inject_treatment st e
              { delivery := update_context st e data (update_context st e data d) })
            = none := by
          rw [update_context_idem]; exact hsel
        rw [wrapper_run_noop st prc' (update_context st e data d) n2 e data eid'
              hfresh hsel2, hrl, update_context_idem]
        exact ⟨rfl, rfl⟩
      | some t =>
        have hmem := List.mem_of_find?_eq_some hsel
        have htab : t ∈ build_treatment_transitions ∧ t.source = st ∧ t.event = e := by
          simpa [candidates, mkTreatmentMachine, List.mem_filter,
            Bool.and_eq_true, decide_eq_true_eq] using hmem
        rw [wrapper_run st prc' d n1 e data eid' hfresh t hsel, hrl]
        have hupd2 : ∀ d' : DeliveryContext, update_context t.target e data d' = d' :=
          fun d' => update_context_target_id t htab.1 e htab.2.2 data d'
        have hsel2 : select_transition
            (candidates (mkTreatmentMachine t.target (record_list prc' eid'))
              t.target e)
            (inject_treatment t.target e
              { delivery := update_context t.target e data
                  (run_action (treatment_on_enter t.target) n1
                    (run_action t.action n1
                      (inject_treatment st e
                        { delivery := update_context st e data d })).1).1.delivery })
            = none := by
          rw [hrl, no_follow_up_bucket t htab.1 e htab.2.2 prc']; rfl
        rw [wrapper_run_noop t.target prc' _ n2 e data eid' hfresh hsel2, hrl, hupd2]
        exact ⟨rfl, rfl⟩
    cases eid with
    | none => exact hfalsy none (Or.inl rfl) prc
    | some s =>
      by_cases hs : s = ""
      · subst hs; exact hfalsy (some "") (Or.inr rfl) prc
      · by_cases hmem : s ∈ prc
        · rw [wrapper_dedup st prc d n1 e data s hs hmem,
              wrapper_dedup st prc _ n2 e data s hs hmem, update_context_idem]
          exact ⟨rfl, rfl⟩
        · have hfresh : FreshId prc (some s) :=
            fun s' h => Or.inr (by cases h; exact hmem)
          have hrl : record_list prc (some s) = s :: prc := by
            simp [record_list, hs]
          cases hsel : select_transition
              (candidates (mkTreatmentMachine st (record_list prc (some s))) st e)
              (inject_treatment st e { delivery := update_context st e data d }) with
          | none =>
            rw [wrapper_run_noop st prc d n1 e data (some s) hfresh hsel, hrl]
            rw [wrapper_dedup st (s :: prc) (update_context st e data d) n2 e data s
                  hs (List.mem_cons_self s prc), update_context_idem]
            exact ⟨rfl, rfl⟩
          | some t =>
            have hmem2 := List.mem_of_find?_eq_some hsel
            have htab : t ∈ build_treatment_transitions ∧ t.source = st
                ∧ t.event = e := by
              simpa [candidates, mkTreatmentMachine, List.mem_filter,
                Bool.and_eq_true, decide_eq_true_eq] using hmem2
            rw [wrapper_run st prc d n1 e data (some s) hfresh t hsel, hrl]
            rw [wrapper_dedup t.target (s :: prc) _ n2 e data s hs
                  (List.mem_cons_self s prc),
                update_context_target_id t htab.1 e htab.2.2 data _]
            exact ⟨rfl, rfl⟩

/-- Witness for the amended C6 at text `"gate locked"`. -/
theorem reason_text_context_consistency_witness :
    (({ delivery_id := "W" } : DeliveryContext).failure_reason = none
      ∨ ({ delivery_id := "W" } : DeliveryContext).failure_reason
          = some FailureReason.OTHER)
  ∧ ¬ pyStrip "gate locked" = ""
  ∧ FreshId [] none
  ∧ ((⟨TreatmentState.ASK_REASON_DETAIL, [], some { delivery_id := "W" }⟩ :
        DeliveryTreatmentFSM).handle_event 2 Event.REASON_TEXT
        { text := some "gate locked" } none).1.delivery
      = some { delivery_id := "W",
               failure_reason := some FailureReason.OTHER,
               failure_reason_text := some "gate locked",
               state := DeliveryState.FAILED } := by
  have hfresh : FreshId [] none := fun s h => by cases h
  have ht : ¬ pyStrip "gate locked" = "" := by decide
  have h := (reason_text_context_consistency { delivery_id := "W" } "gate locked"
    (Or.inl rfl) ht [] 2 none hfresh).2.1
  exact ⟨Or.inl rfl, ht, hfresh, h⟩

end Agent
